import Mathlib

/-!
Verification of `common/models/key-value-model.js` (loopback KeyValueModel).

The JavaScript module declares six key-value operations (`get`, `set`,
`expire`, `ttl`, `keys`, `iterateKeys`) whose bodies all throw a
"not attached" error, a `setup` step that registers REST-remoting metadata
with the framework, and a `rest.after` hook `convertNullToNotFoundError`.
This file embeds those definitions shallowly and proves the spec's claims
about them.  The backend key-value semantics (get/set/expire on a live
store) are not part of the JavaScript source — only their declarations
are — so a store is modelled from the specification where a claim needs it.
-/

set_option autoImplicit false
set_option linter.unusedVariables false

/-- A JavaScript runtime value, as far as this module observes it:
`null` and `undefined` are distinct, and booleans, numbers and strings
are enough for the data the six operations and the remoting hook handle. -/
inductive JSValue where
  | null
  | undefined
  | bool (b : Bool)
  | num (n : Int)
  | str (s : String)
deriving DecidableEq

/-- Display of a `JSValue` the way Node's `util.format` renders a `%s`
placeholder (strong-globalize's `g.f` delegates to it): `undefined`
prints as the string `"undefined"`, `null` as `"null"`, and so on. -/
def JSValue.display : JSValue → String
  | JSValue.null => "null"
  | JSValue.undefined => "undefined"
  | JSValue.bool b => if b then "true" else "false"
  | JSValue.num n => toString n
  | JSValue.str s => s

/-- A JavaScript `Error` as this module builds them: a message, plus the
`statusCode` / `status` / `code` properties that
`convertNullToNotFoundError` attaches (absent on a plain `new Error`). -/
structure JSError where
  message : String
  statusCode : Option Nat := none
  status : Option Nat := none
  code : Option String := none
deriving DecidableEq

/-- strong-globalize leaves `\x7b\x7b...\x7d\x7d`-wrapped text untranslated and strips
the double-brace markers from the rendered message.  This removes them
from the format string. -/
def stripMarkers : List Char → List Char
  | [] => []
  | '\x7b' :: '\x7b' :: rest => stripMarkers rest
  | '\x7d' :: '\x7d' :: rest => stripMarkers rest
  | c :: rest => c :: stripMarkers rest

/-- Positional `%s` substitution as `util.format` performs it: each `%s`
consumes the next argument; leftover `%s` markers stay literal. -/
def substFormatArgs : List Char → List String → List Char
  | [], _ => []
  | '%' :: 's' :: rest, a :: args => a.data ++ substFormatArgs rest args
  | c :: rest, args => c :: substFormatArgs rest args

/-- strong-globalize's `g.f(fmt, ...args)`: strip the no-translate
markers, then substitute the `%s` placeholders positionally. -/
def gFormat (fmt : String) (args : List String) : String :=
  ⟨substFormatArgs (stripMarkers fmt.data) args⟩

/-- `throwNotAttached(modelName, methodName)` from the source: builds the
error every operation stub throws when the model is not attached to a
data source.  The format string is the source's literal. -/
def throwNotAttached (modelName methodName : String) : JSError :=
  { message := gFormat
      "Cannot call %s.%s(). The %s method has not been setup. The \x7b\x7bKeyValueModel\x7d\x7d has not been correctly attached to a \x7b\x7bDataSource\x7d\x7d!"
      [modelName, methodName, methodName] }

/-- Observable outcome of invoking one of the operation stubs on a model
whose state has type `σ`: the synchronous result (the stubs throw, so it
is always an error), the list of calls made to the supplied callback
(each call is its argument list), and the model state after the call. -/
structure StubOutcome (σ : Type) where
  result : Except JSError JSValue
  cbCalls : List (List JSValue)
  state : σ

/-- `KeyValueModel.get(key, options, callback)`: the body is exactly
`throwNotAttached(this.modelName, 'get')`. -/
def KeyValueModel.get {σ : Type} (modelName : String) (state : σ)
    (key options callback : JSValue) : StubOutcome σ :=
  { result := Except.error (throwNotAttached modelName "get"),
    cbCalls := [], state := state }

/-- `KeyValueModel.set(key, value, options, callback)`: the body is
exactly `throwNotAttached(this.modelName, 'set')`. -/
def KeyValueModel.set {σ : Type} (modelName : String) (state : σ)
    (key value options callback : JSValue) : StubOutcome σ :=
  { result := Except.error (throwNotAttached modelName "set"),
    cbCalls := [], state := state }

/-- `KeyValueModel.expire(key, ttl, options, callback)`: the body is
exactly `throwNotAttached(this.modelName, 'expire')`. -/
def KeyValueModel.expire {σ : Type} (modelName : String) (state : σ)
    (key ttl options callback : JSValue) : StubOutcome σ :=
  { result := Except.error (throwNotAttached modelName "expire"),
    cbCalls := [], state := state }

/-- `KeyValueModel.ttl(key, options, callback)`: the body is exactly
`throwNotAttached(this.modelName, 'ttl')`. -/
def KeyValueModel.ttl {σ : Type} (modelName : String) (state : σ)
    (key options callback : JSValue) : StubOutcome σ :=
  { result := Except.error (throwNotAttached modelName "ttl"),
    cbCalls := [], state := state }

/-- `KeyValueModel.keys(filter, options, callback)`: the body is exactly
`throwNotAttached(this.modelName, 'keys')`. -/
def KeyValueModel.keys {σ : Type} (modelName : String) (state : σ)
    (filter options callback : JSValue) : StubOutcome σ :=
  { result := Except.error (throwNotAttached modelName "keys"),
    cbCalls := [], state := state }

/-- `KeyValueModel.iterateKeys(filter, options)`: the body is exactly
`throwNotAttached(this.modelName, 'iterateKeys')`; this stub takes no
callback parameter in the source. -/
def KeyValueModel.iterateKeys {σ : Type} (modelName : String) (state : σ)
    (filter options : JSValue) : StubOutcome σ :=
  { result := Except.error (throwNotAttached modelName "iterateKeys"),
    cbCalls := [], state := state }

/-- The `type:` field of a remoting argument or return declaration:
either a single named type (`'string'`, `'number'`, `'any'`, `'object'`)
or a list type such as `['string']`. -/
inductive RemoteTypeSpec where
  | single (typeName : String)
  | listOf (typeName : String)
deriving DecidableEq

/-- One entry of a remote method's `accepts:` declaration.  `required`
defaults to `false` when the source omits it; `source` is the declared
`http: { source: ... }` channel; `description` the optional free text. -/
structure RemoteArg where
  arg : String
  type : RemoteTypeSpec
  required : Bool := false
  source : Option String := none
  description : Option String := none
deriving DecidableEq

/-- A remote method's `returns:` declaration. -/
structure RemoteReturn where
  arg : String
  type : RemoteTypeSpec
  root : Bool := false
deriving DecidableEq

/-- A remote method's `http: { path, verb }` routing declaration. -/
structure RemoteHttpRoute where
  path : String
  verb : String
deriving DecidableEq

/-- The hooks this module can install under `rest: { after: ... }`; the
only one is `convertNullToNotFoundError` (its behaviour is the function
of the same name below). -/
inductive RestHook where
  | convertNullToNotFound
deriving DecidableEq

/-- One `this.remoteMethod(name, config)` registration. -/
structure RemoteMethodDef where
  name : String
  accepts : List RemoteArg
  returns : Option RemoteReturn := none
  http : RemoteHttpRoute
  rest_after : Option RestHook := none
deriving DecidableEq

/-- `KeyValueModel.setup`: after delegating to `base.setup`, the source
registers these remote methods, in this order and with exactly these
configurations. -/
def KeyValueModel.setup : List RemoteMethodDef :=
  [ { name := "get",
      accepts := [ { arg := "key", type := RemoteTypeSpec.single "string",
                     required := true, source := some "path" } ],
      returns := some { arg := "value", type := RemoteTypeSpec.single "any",
                        root := true },
      http := { path := "/:key", verb := "get" },
      rest_after := some RestHook.convertNullToNotFound },
    { name := "set",
      accepts := [ { arg := "key", type := RemoteTypeSpec.single "string",
                     required := true, source := some "path" },
                   { arg := "value", type := RemoteTypeSpec.single "any",
                     required := true, source := some "body" },
                   { arg := "ttl", type := RemoteTypeSpec.single "number",
                     source := some "query",
                     description := some "time to live in milliseconds" } ],
      http := { path := "/:key", verb := "put" } },
    { name := "expire",
      accepts := [ { arg := "key", type := RemoteTypeSpec.single "string",
                     required := true, source := some "path" },
                   { arg := "ttl", type := RemoteTypeSpec.single "number",
                     required := true, source := some "form" } ],
      http := { path := "/:key/expire", verb := "put" } },
    { name := "ttl",
      accepts := [ { arg := "key", type := RemoteTypeSpec.single "string",
                     required := true, source := some "path" } ],
      returns := some { arg := "value", type := RemoteTypeSpec.single "any",
                        root := true },
      http := { path := "/:key/ttl", verb := "get" } },
    { name := "keys",
      accepts := [ { arg := "filter", type := RemoteTypeSpec.single "object",
                     required := false, source := some "query" } ],
      returns := some { arg := "keys", type := RemoteTypeSpec.listOf "string",
                        root := true },
      http := { path := "/keys", verb := "get" } } ]

/-- The remote-method registration for a given operation name, if any. -/
def findMethod (n : String) : Option RemoteMethodDef :=
  KeyValueModel.setup.find? (fun md => md.name == n)

/-- The six operations the module declares. -/
def operationNames : List String :=
  ["get", "set", "expire", "ttl", "keys", "iterateKeys"]

/-- The remoting context a `rest.after` hook observes: the invocation
result, the shared-class (model) name reachable as
`ctx.method.sharedClass.name`, and the named arguments of the request,
queried through `ctx.getArgByName`. -/
structure HookCtx where
  result : JSValue
  sharedClassName : String
  args : List (String × JSValue)
deriving DecidableEq

/-- `ctx.getArgByName(name)`: the value of the named request argument,
or JavaScript `undefined` when no argument of that name exists. -/
def HookCtx.getArgByName : HookCtx → String → JSValue
  | ctx, n =>
    match ctx.args.lookup n with
    | some v => v
    | none => JSValue.undefined

/-- What a `rest.after` hook passes to its continuation `cb`: an error,
or nothing; plus the context as the hook leaves it. -/
structure HookOutcome where
  err : Option JSError
  ctx : HookCtx
deriving DecidableEq

/-- `convertNullToNotFoundError(ctx, cb)` from the source: when the
result is not strictly `null` it calls `cb()` at once; otherwise it
builds the 404 `KEY_NOT_FOUND` error from the model name and
`ctx.getArgByName('id')` and passes it to `cb`.  The context itself is
never mutated. -/
def convertNullToNotFoundError (ctx : HookCtx) : HookOutcome :=
  if ctx.result ≠ JSValue.null then { err := none, ctx := ctx }
  else
    { err := some
        { message := gFormat "Unknown \"%s\" \x7b\x7bkey\x7d\x7d \"%s\"."
            [ctx.sharedClassName, (ctx.getArgByName "id").display],
          statusCode := some 404,
          status := some 404,
          code := some "KEY_NOT_FOUND" },
      ctx := ctx }

/-- Modelled from the spec: the backend key-value semantics are not in
the JavaScript source (every method body is an unattached stub), so the
Entry of §3 is taken from the specification: a value plus an optional
absolute expiry timestamp; an absent `expiresAt` means no expiration. -/
structure KVEntry where
  value : JSValue
  expiresAt : Option Int
deriving DecidableEq

/-- Modelled from the spec: the Store of §3 — a mapping from key to
entry (represented as an association list with unique keys) together
with the store's clock, injectable for determinism. -/
structure KVStore where
  now : Int
  entries : List (String × KVEntry)
deriving DecidableEq

/-- Lookup of a key in the entry list. -/
def lookupEntry : List (String × KVEntry) → String → Option KVEntry
  | [], _ => none
  | (k', e) :: rest, k => if k' = k then some e else lookupEntry rest k

/-- Create-or-overwrite of a key in the entry list (keys stay unique). -/
def setEntry : List (String × KVEntry) → String → KVEntry → List (String × KVEntry)
  | [], k, e => [(k, e)]
  | (k', e') :: rest, k, e =>
    if k' = k then (k, e) :: rest else (k', e') :: setEntry rest k e

/-- Unconditional removal of a key from the entry list. -/
def removeEntry : List (String × KVEntry) → String → List (String × KVEntry)
  | [], _ => []
  | (k', e') :: rest, k =>
    if k' = k then rest else (k', e') :: removeEntry rest k

/-- Modelled from the spec: §4.2's `isExpired(entry, now)` —
`entry.expiresAt` is set AND `entry.expiresAt <= now`. -/
def isExpired (e : KVEntry) (now : Int) : Bool :=
  match e.expiresAt with
  | some t => t ≤ now
  | none => false

/-- Outcome of a `get`: the spec's NOT_FOUND sentinel or the value.
There is no error alternative — §4.1: `get` never fails for a missing
key, it signals absence. -/
inductive GetResult where
  | notFound
  | found (v : JSValue)
deriving DecidableEq

/-- Modelled from the spec: the data-level failure of §7 that `expire`
can signal (`NotFound` — key absent or already logically expired). -/
inductive KVError where
  | notFound
deriving DecidableEq

/-- A key's entry viewed through the §3 invariant: an entry whose
`expiresAt` is in the past is logically absent. -/
def liveLookup (st : KVStore) (k : String) : Option KVEntry :=
  match lookupEntry st.entries k with
  | none => none
  | some e => if isExpired e st.now then none else some e

/-- Modelled from the spec: §4.1's `get(key)` — the value only if the
entry exists and is not expired; an expired entry met during lookup is
lazily reclaimed and NOT_FOUND is returned. -/
def kvGet (st : KVStore) (k : String) : GetResult × KVStore :=
  match lookupEntry st.entries k with
  | none => (GetResult.notFound, st)
  | some e =>
    if isExpired e st.now then
      (GetResult.notFound, { st with entries := removeEntry st.entries k })
    else
      (GetResult.found e.value, st)

/-- Modelled from the spec: §4.1's `set(key, value, options)` — creates
or overwrites the entry; with a ttl, `expiresAt = now + ttl`; without,
the entry persists with no expiration. -/
def kvSet (st : KVStore) (k : String) (v : JSValue) (ttl : Option Int) : KVStore :=
  let e : KVEntry := { value := v, expiresAt := ttl.map (fun t => st.now + t) }
  { st with entries := setEntry st.entries k e }

/-- Modelled from the spec: §4.2's `expire(key, ttl)` — updates only
`expiresAt` on an existing (live) entry without touching `value`; fails
with `NotFound` if the key does not exist (no implicit creation).  A
non-positive ttl produces `expiresAt = now + ttl ≤ now`, i.e. immediate
expiry resolved through the lazy-reclamation path. -/
def kvExpire (st : KVStore) (k : String) (ttl : Int) : Except KVError KVStore :=
  match liveLookup st k with
  | none => Except.error KVError.notFound
  | some e =>
    let e' : KVEntry := { value := e.value, expiresAt := some (st.now + ttl) }
    Except.ok { st with entries := setEntry st.entries k e' }

/-- One operation of a client history against the store, clock advance
included. -/
inductive KVOp where
  | set (k : String) (v : JSValue) (ttl : Option Int)
  | expire (k : String) (ttl : Int)
  | get (k : String)
  | tick (d : Int)
deriving DecidableEq

/-- Whether an operation is a `set` of the given key (the only way a
history can create the key). -/
def setsKey (op : KVOp) (k : String) : Bool :=
  match op with
  | KVOp.set k' _ _ => decide (k' = k)
  | _ => false

/-- Effect of one operation on the store: a failed `expire` leaves the
store untouched; a `get` keeps only its lazy-reclamation effect. -/
def applyOp (st : KVStore) : KVOp → KVStore
  | KVOp.set k v ttl => kvSet st k v ttl
  | KVOp.expire k ttl =>
    match kvExpire st k ttl with
    | Except.ok st' => st'
    | Except.error _ => st
  | KVOp.get k => (kvGet st k).2
  | KVOp.tick d => { st with now := st.now + d }

/-- The store after running a history from the empty store. -/
def runOps (ops : List KVOp) : KVStore :=
  ops.foldl applyOp { now := 0, entries := [] }

/-- A concrete store holding a single unexpiring entry under `"a"`,
used to evaluate the store operations at concrete inputs. -/
def sampleStore : KVStore :=
  { now := 0,
    entries := [("a", { value := JSValue.str "v", expiresAt := none })] }

theorem lookupEntry_setEntry_self (l : List (String × KVEntry)) (k : String)
    (e : KVEntry) : lookupEntry (setEntry l k e) k = some e := by
  induction l with
  | nil => simp [setEntry, lookupEntry]
  | cons p rest ih =>
    obtain ⟨k', e'⟩ := p
    by_cases h : k' = k
    · simp [setEntry, h, lookupEntry]
    · simp [setEntry, h, lookupEntry, ih]

theorem lookupEntry_setEntry_ne (l : List (String × KVEntry)) (k k2 : String)
    (e : KVEntry) (h : k ≠ k2) :
    lookupEntry (setEntry l k e) k2 = lookupEntry l k2 := by
  induction l with
  | nil => simp [setEntry, lookupEntry, h]
  | cons p rest ih =>
    obtain ⟨k', e'⟩ := p
    by_cases hk : k' = k
    · subst hk
      simp [setEntry, lookupEntry, h]
    · simp [setEntry, hk, lookupEntry, ih]

theorem lookupEntry_removeEntry_none (l : List (String × KVEntry)) (k k2 : String)
    (h : lookupEntry l k2 = none) :
    lookupEntry (removeEntry l k) k2 = none := by
  induction l with
  | nil => simpa [removeEntry] using h
  | cons p rest ih =>
    obtain ⟨k', e'⟩ := p
    by_cases hk2 : k' = k2
    · simp [lookupEntry, hk2] at h
    · by_cases hk : k' = k
      · simp [lookupEntry, hk2] at h
        simp [removeEntry, hk, h]
      · simp [lookupEntry, hk2] at h
        simp [removeEntry, hk, lookupEntry, hk2, ih h]

theorem lookupEntry_applyOp_none (st : KVStore) (op : KVOp) (k : String)
    (hop : setsKey op k = false) (h : lookupEntry st.entries k = none) :
    lookupEntry (applyOp st op).entries k = none := by
  cases op with
  | set k' v ttl =>
    have hne : k' ≠ k := by simpa [setsKey] using hop
    simpa [applyOp, kvSet, lookupEntry_setEntry_ne _ _ _ _ hne] using h
  | expire k' t =>
    by_cases hk : k' = k
    · subst hk
      simp [applyOp, kvExpire, liveLookup, h]
    · cases hl : liveLookup st k' with
      | none => simpa [applyOp, kvExpire, hl] using h
      | some e =>
        simpa [applyOp, kvExpire, hl, lookupEntry_setEntry_ne _ _ _ _ hk] using h
  | get k' =>
    cases hl : lookupEntry st.entries k' with
    | none => simpa [applyOp, kvGet, hl] using h
    | some e =>
      by_cases hx : isExpired e st.now
      · simp [applyOp, kvGet, hl, hx, lookupEntry_removeEntry_none _ _ _ h]
      · simpa [applyOp, kvGet, hl, hx] using h
  | tick d => simpa [applyOp] using h

theorem lookupEntry_foldl_none (ops : List KVOp) (st : KVStore) (k : String)
    (hops : ops.all (fun op => ! setsKey op k) = true)
    (h : lookupEntry st.entries k = none) :
    lookupEntry (ops.foldl applyOp st).entries k = none := by
  induction ops generalizing st with
  | nil => simpa using h
  | cons op rest ih =>
    simp only [List.all_cons, Bool.and_eq_true, Bool.not_eq_true'] at hops
    exact ih (applyOp st op) (by simpa using hops.2)
      (lookupEntry_applyOp_none st op k hops.1 h)

/-- C1: invoking any of the six operations on a model with no concrete
data-source backend attached fails by throwing an error whose message
names the model and the method as not set up / not attached, for all
argument values. -/
theorem c1_all_stubs_throw_not_attached {σ : Type} (m : String) (st : σ)
    (k v t o c fl : JSValue) :
    (KeyValueModel.get m st k o c).result = Except.error
      { message := "Cannot call " ++ m ++ ".get(). The get method has not been setup. The KeyValueModel has not been correctly attached to a DataSource!" } ∧
    (KeyValueModel.set m st k v o c).result = Except.error
      { message := "Cannot call " ++ m ++ ".set(). The set method has not been setup. The KeyValueModel has not been correctly attached to a DataSource!" } ∧
    (KeyValueModel.expire m st k t o c).result = Except.error
      { message := "Cannot call " ++ m ++ ".expire(). The expire method has not been setup. The KeyValueModel has not been correctly attached to a DataSource!" } ∧
    (KeyValueModel.ttl m st k o c).result = Except.error
      { message := "Cannot call " ++ m ++ ".ttl(). The ttl method has not been setup. The KeyValueModel has not been correctly attached to a DataSource!" } ∧
    (KeyValueModel.keys m st fl o c).result = Except.error
      { message := "Cannot call " ++ m ++ ".keys(). The keys method has not been setup. The KeyValueModel has not been correctly attached to a DataSource!" } ∧
    (KeyValueModel.iterateKeys m st fl o).result = Except.error
      { message := "Cannot call " ++ m ++ ".iterateKeys(). The iterateKeys method has not been setup. The KeyValueModel has not been correctly attached to a DataSource!" } :=
  ⟨rfl, rfl, rfl, rfl, rfl, rfl⟩

/-- C2 counterexample: it is not the case that every one of the six
operations receives a REST-remoting binding in `setup` — `iterateKeys`
is never passed to `remoteMethod`. -/
theorem c2_counterexample_iterateKeys_unbound :
    ¬ (∀ op ∈ operationNames, ∃ md ∈ KeyValueModel.setup, md.name = op) := by
  decide

/-- C2 (amended): the setup step registers REST-remoting metadata
binding each of the five operations get, set, expire, ttl and keys to an
HTTP verb and path; `iterateKeys` receives no REST binding. -/
theorem c2_setup_binds_five_operations :
    KeyValueModel.setup.map (fun md => (md.name, md.http.verb, md.http.path)) =
      [("get", "get", "/:key"), ("set", "put", "/:key"),
       ("expire", "put", "/:key/expire"), ("ttl", "get", "/:key/ttl"),
       ("keys", "get", "/keys")] ∧
    ¬ ∃ md ∈ KeyValueModel.setup, md.name = "iterateKeys" := by
  decide

/-- C3: the get operation's REST binding installs
`convertNullToNotFoundError` as its after-hook; the hook converts a
`null` result into an error carrying status code 404 and code
`KEY_NOT_FOUND`, and passes any non-null result through unchanged with
no error. -/
theorem c3_null_result_becomes_404 :
    (findMethod "get").bind (fun md => md.rest_after) =
        some RestHook.convertNullToNotFound ∧
    (∀ ctx : HookCtx, ctx.result = JSValue.null →
      ∃ e, (convertNullToNotFoundError ctx).err = some e ∧
        e.statusCode = some 404 ∧ e.status = some 404 ∧
        e.code = some "KEY_NOT_FOUND") ∧
    (∀ ctx : HookCtx, ctx.result ≠ JSValue.null →
      convertNullToNotFoundError ctx = { err := none, ctx := ctx }) := by
  refine ⟨by decide, ?_, ?_⟩
  · intro ctx h
    unfold convertNullToNotFoundError
    rw [if_neg (not_not_intro h)]
    exact ⟨_, rfl, rfl, rfl, rfl⟩
  · intro ctx h
    unfold convertNullToNotFoundError
    rw [if_pos h]

/-- C3 witness: the hook at a concrete `null`-result context and at a
concrete string-result context. -/
theorem c3_witness :
    (∃ e, (convertNullToNotFoundError ⟨JSValue.null, "KV", []⟩).err = some e ∧
      e.statusCode = some 404 ∧ e.status = some 404 ∧
      e.code = some "KEY_NOT_FOUND") ∧
    convertNullToNotFoundError ⟨JSValue.str "x", "KV", []⟩ =
      { err := none, ctx := ⟨JSValue.str "x", "KV", []⟩ } :=
  ⟨c3_null_result_becomes_404.2.1 ⟨JSValue.null, "KV", []⟩ rfl,
   c3_null_result_becomes_404.2.2 ⟨JSValue.str "x", "KV", []⟩ (by decide)⟩

/-- C4: for every key that no operation of the history ever set, `get`
completes with the NOT_FOUND sentinel — its result type has no failure
alternative, so it never throws. -/
theorem c4_get_of_unset_key_is_not_found (ops : List KVOp) (k : String)
    (h : ops.all (fun op => ! setsKey op k) = true) :
    (kvGet (runOps ops) k).1 = GetResult.notFound := by
  have hnone : lookupEntry (runOps ops).entries k = none :=
    lookupEntry_foldl_none ops { now := 0, entries := [] } k h rfl
  simp [kvGet, hnone]

/-- C4 witness: a history that sets and reads `"a"` but never sets
`"b"`; reading `"b"` afterwards signals absence. -/
theorem c4_witness :
    ([KVOp.set "a" (JSValue.str "x") none, KVOp.tick 5, KVOp.get "a"].all
        (fun op => ! setsKey op "b") = true) ∧
    (kvGet (runOps [KVOp.set "a" (JSValue.str "x") none, KVOp.tick 5,
        KVOp.get "a"]) "b").1 = GetResult.notFound :=
  ⟨by decide,
   c4_get_of_unset_key_is_not_found
     [KVOp.set "a" (JSValue.str "x") none, KVOp.tick 5, KVOp.get "a"] "b"
     (by decide)⟩

/-- C5: `set(k, v)` followed by `get(k)` returns exactly `v`, with no
transformation of the stored value, from any starting store. -/
theorem c5_set_then_get_roundtrip (st : KVStore) (k : String) (v : JSValue) :
    (kvGet (kvSet st k v none) k).1 = GetResult.found v := by
  simp [kvGet, kvSet, lookupEntry_setEntry_self, isExpired]

/-- C6: in the HTTP bindings registered by setup, `set` takes `key`
(required), `value` (required) and `ttl` (optional), while `expire`
takes `key` (required) and `ttl` (required). -/
theorem c6_ttl_optional_for_set_required_for_expire :
    ((findMethod "set").map
        (fun md => md.accepts.map (fun a => (a.arg, a.required))) =
      some [("key", true), ("value", true), ("ttl", false)]) ∧
    ((findMethod "expire").map
        (fun md => md.accepts.map (fun a => (a.arg, a.required))) =
      some [("key", true), ("ttl", true)]) := by
  decide

/-- C7: `expire(k, ttl)` on a key with no live entry fails with NotFound
and leaves the store untouched (no implicit creation); on a live key it
succeeds, keeps the clock and the stored value, updates only the expiry
to `now + ttl`, and leaves every other key's entry unchanged. -/
theorem c7_expire_updates_only_expiry (st : KVStore) (k : String) (t : Int) :
    (liveLookup st k = none →
      kvExpire st k t = Except.error KVError.notFound ∧
      applyOp st (KVOp.expire k t) = st) ∧
    (∀ e, liveLookup st k = some e →
      ∃ st', kvExpire st k t = Except.ok st' ∧
        st'.now = st.now ∧
        lookupEntry st'.entries k =
          some { value := e.value, expiresAt := some (st.now + t) } ∧
        ∀ k2, k2 ≠ k → lookupEntry st'.entries k2 = lookupEntry st.entries k2) := by
  constructor
  · intro h
    exact ⟨by simp [kvExpire, h], by simp [applyOp, kvExpire, h]⟩
  · intro e h
    refine ⟨{ st with entries := setEntry st.entries k { value := e.value, expiresAt := some (st.now + t) } }, ?_, rfl, ?_, ?_⟩
    · simp [kvExpire, h]
    · exact lookupEntry_setEntry_self _ _ _
    · intro k2 hk2
      exact lookupEntry_setEntry_ne _ _ _ _ (Ne.symm hk2)

/-- C7 witness: a store holding only `"a"`; expiring `"b"` fails with
NotFound and changes nothing, expiring `"a"` rewrites only its expiry. -/
theorem c7_witness :
    (liveLookup sampleStore "b" = none ∧
      kvExpire sampleStore "b" 5 = Except.error KVError.notFound ∧
      applyOp sampleStore (KVOp.expire "b" 5) = sampleStore) ∧
    (liveLookup sampleStore "a" =
        some { value := JSValue.str "v", expiresAt := none } ∧
      ∃ st', kvExpire sampleStore "a" 5 = Except.ok st' ∧
        st'.now = sampleStore.now ∧
        lookupEntry st'.entries "a" =
          some { value := JSValue.str "v",
                 expiresAt := some (sampleStore.now + 5) } ∧
        ∀ k2, k2 ≠ "a" →
          lookupEntry st'.entries k2 = lookupEntry sampleStore.entries k2) :=
  ⟨⟨by decide,
    (c7_expire_updates_only_expiry sampleStore "b" 5).1 (by decide)⟩,
   ⟨by decide,
    (c7_expire_updates_only_expiry sampleStore "a" 5).2
      { value := JSValue.str "v", expiresAt := none } (by decide)⟩⟩

/-- C8: the null-to-not-found after-hook rewrites the outcome exactly
when the result is strictly `null`; for any other result — `undefined`,
`false`, `0`, the empty string, or any non-null value — it signals no
error and leaves the context, its result included, unchanged. -/
theorem c8_hook_fires_only_on_strict_null (ctx : HookCtx) :
    ((convertNullToNotFoundError ctx).err.isSome ↔
        ctx.result = JSValue.null) ∧
    (ctx.result ≠ JSValue.null →
      convertNullToNotFoundError ctx = { err := none, ctx := ctx }) := by
  by_cases h : ctx.result = JSValue.null
  · refine ⟨?_, fun hc => absurd h hc⟩
    unfold convertNullToNotFoundError
    rw [if_neg (not_not_intro h)]
    simp [h]
  · refine ⟨?_, fun _ => ?_⟩
    · unfold convertNullToNotFoundError
      rw [if_pos h]
      simp [h]
    · unfold convertNullToNotFoundError
      rw [if_pos h]

/-- C8 witness: the hook leaves contexts with result `undefined`,
`false`, `0` and `""` untouched and error-free. -/
theorem c8_witness :
    (JSValue.undefined ≠ JSValue.null ∧
      convertNullToNotFoundError ⟨JSValue.undefined, "KV", []⟩ =
        { err := none, ctx := ⟨JSValue.undefined, "KV", []⟩ }) ∧
    (JSValue.bool false ≠ JSValue.null ∧
      convertNullToNotFoundError ⟨JSValue.bool false, "KV", []⟩ =
        { err := none, ctx := ⟨JSValue.bool false, "KV", []⟩ }) ∧
    (JSValue.num 0 ≠ JSValue.null ∧
      convertNullToNotFoundError ⟨JSValue.num 0, "KV", []⟩ =
        { err := none, ctx := ⟨JSValue.num 0, "KV", []⟩ }) ∧
    (JSValue.str "" ≠ JSValue.null ∧
      convertNullToNotFoundError ⟨JSValue.str "", "KV", []⟩ =
        { err := none, ctx := ⟨JSValue.str "", "KV", []⟩ }) :=
  ⟨⟨by decide,
    (c8_hook_fires_only_on_strict_null ⟨JSValue.undefined, "KV", []⟩).2 (by decide)⟩,
   ⟨by decide,
    (c8_hook_fires_only_on_strict_null ⟨JSValue.bool false, "KV", []⟩).2 (by decide)⟩,
   ⟨by decide,
    (c8_hook_fires_only_on_strict_null ⟨JSValue.num 0, "KV", []⟩).2 (by decide)⟩,
   ⟨by decide,
    (c8_hook_fires_only_on_strict_null ⟨JSValue.str "", "KV", []⟩).2 (by decide)⟩⟩

/-- C9: the 404 message is built from the argument named `id`, but the
get binding's only declared argument is named `key`; hence for every
request routed through get (a context whose arguments are exactly the
binding's), the key slot of the message renders JavaScript `undefined`,
never the requested key. -/
theorem c9_message_renders_undefined_for_key :
    ((findMethod "get").map (fun md => md.accepts.map (fun a => a.arg)) =
        some ["key"]) ∧
    (∀ (name : String) (k : JSValue),
      ∃ e, (convertNullToNotFoundError ⟨JSValue.null, name, [("key", k)]⟩).err =
          some e ∧
        e.message = "Unknown \"" ++ name ++ "\" key \"undefined\".") := by
  refine ⟨by decide, ?_⟩
  intro name k
  exact ⟨_, rfl, rfl⟩

/-- C10: each of the six operation stubs is deterministic and
argument-independent — for any two invocations on the same model name,
whatever the key, value, ttl, filter, options, callback or model state,
the thrown error is the same, the callback is never invoked, and the
model state is returned unread and unmodified. -/
theorem c10_stubs_argument_independent {σ : Type} (m : String)
    (st st2 : σ) (k v t o c k2 v2 t2 o2 c2 fl fl2 : JSValue) :
    ((KeyValueModel.get m st k o c).result =
        (KeyValueModel.get m st2 k2 o2 c2).result ∧
      (KeyValueModel.get m st k o c).cbCalls = [] ∧
      (KeyValueModel.get m st k o c).state = st) ∧
    ((KeyValueModel.set m st k v o c).result =
        (KeyValueModel.set m st2 k2 v2 o2 c2).result ∧
      (KeyValueModel.set m st k v o c).cbCalls = [] ∧
      (KeyValueModel.set m st k v o c).state = st) ∧
    ((KeyValueModel.expire m st k t o c).result =
        (KeyValueModel.expire m st2 k2 t2 o2 c2).result ∧
      (KeyValueModel.expire m st k t o c).cbCalls = [] ∧
      (KeyValueModel.expire m st k t o c).state = st) ∧
    ((KeyValueModel.ttl m st k o c).result =
        (KeyValueModel.ttl m st2 k2 o2 c2).result ∧
      (KeyValueModel.ttl m st k o c).cbCalls = [] ∧
      (KeyValueModel.ttl m st k o c).state = st) ∧
    ((KeyValueModel.keys m st fl o c).result =
        (KeyValueModel.keys m st2 fl2 o2 c2).result ∧
      (KeyValueModel.keys m st fl o c).cbCalls = [] ∧
      (KeyValueModel.keys m st fl o c).state = st) ∧
    ((KeyValueModel.iterateKeys m st fl o).result =
        (KeyValueModel.iterateKeys m st2 fl2 o2).result ∧
      (KeyValueModel.iterateKeys m st fl o).cbCalls = [] ∧
      (KeyValueModel.iterateKeys m st fl o).state = st) :=
  ⟨⟨rfl, rfl, rfl⟩, ⟨rfl, rfl, rfl⟩, ⟨rfl, rfl, rfl⟩,
   ⟨rfl, rfl, rfl⟩, ⟨rfl, rfl, rfl⟩, ⟨rfl, rfl, rfl⟩⟩
